import Mathlib

/-!
Verification of the hr-autopilot AI workflow layer.

This file gives a shallow embedding of the repository's decision
pipeline: the JSON values the JavaScript runtime manipulates, the
`JSON.parse` boundary, the response parsers and decision mappers in
`gptService.ts`, `leaveApproval.ts`, `complianceCheck.ts`,
`onboarding.ts`, and the demo agents `fastApproval.ts` and
`emergencyOverride.ts`, plus the validation helpers of `baseAgent.ts`.
The hosted model is modelled as an oracle: every operation takes the
model's raw reply (or a provider failure) as an explicit argument, and
operations that invoke the model report that fact in their result so
that call/no-call properties can be stated.
-/

set_option autoImplicit false

/-- Values of the JavaScript runtime as far as this layer observes them:
`undef` models the `undefined` value produced by accessing an absent
property, the rest are the JSON value forms.  Numbers are modelled as
rationals, which represent every decimal literal the pipeline handles
exactly (the code never does arithmetic on them, it only copies them). -/
inductive Js where
  | undef : Js
  | null : Js
  | bool : Bool → Js
  | num : ℚ → Js
  | str : String → Js
  | arr : List Js → Js
  | obj : List (String × Js) → Js

/-- Insert or overwrite a key in an object's field list, keeping the
original position of an overwritten key, as JavaScript object literals
and `JSON.parse` do when a key repeats (later value wins). -/
def upsert : List (String × Js) → String → Js → List (String × Js)
  | [], k, v => [(k, v)]
  | (k0, v0) :: fs, k, v =>
    if k0 = k then (k0, v) :: fs else (k0, v0) :: upsert fs k v

/-- Fold a batch of key/value pairs into a field list with `upsert`. -/
def upsertAll (fs : List (String × Js)) (kvs : List (String × Js)) : List (String × Js) :=
  kvs.foldl (fun acc kv => upsert acc kv.1 kv.2) fs

/-- Read a key of a JavaScript object; `none` when the value is not an
object or the key is absent (used to state which fields a produced
record actually carries). -/
def Js.objGet : Js → String → Option Js
  | .obj fs, k => fs.lookup k
  | _, _ => none

/-- Property access `v.k` as the runtime performs it: a `TypeError`
(`none`) on `null`/`undefined`, the field or `undefined` on an object,
and `undefined` on any other primitive. -/
def jsGet : Js → String → Option Js
  | .null, _ => none
  | .undef, _ => none
  | .obj fs, k => some ((fs.lookup k).getD Js.undef)
  | _, _ => some Js.undef

/-- Whitespace skipping of the JSON grammar (space, tab, LF, CR). -/
def skipWs : List Char → List Char
  | c :: cs =>
    if c = ' ' ∨ c = '\t' ∨ c = '\n' ∨ c = '\r' then skipWs cs else c :: cs
  | [] => []

/-- Value of a hexadecimal digit, for `\uXXXX` string escapes. -/
def hexVal (c : Char) : Option Nat :=
  if c.isDigit then some (c.toNat - 48)
  else if 'a' ≤ c ∧ c ≤ 'f' then some (c.toNat - 87)
  else if 'A' ≤ c ∧ c ≤ 'F' then some (c.toNat - 55)
  else none

/-- Body of a JSON string literal, after the opening quote; returns the
decoded string and the input past the closing quote.  Control
characters must be escaped; `\uXXXX` decodes a single code unit
(surrogate-pair recombination is not modelled, the pipeline's replies
are plain text). -/
def parseStrBody : List Char → List Char → Option (String × List Char)
  | [], _ => none
  | '"' :: rest, acc => some (String.mk acc.reverse, rest)
  | '\\' :: 'u' :: a :: b :: c :: d :: rest, acc =>
    match hexVal a, hexVal b, hexVal c, hexVal d with
    | some ha, some hb, some hc, some hd =>
      parseStrBody rest (Char.ofNat (((ha * 16 + hb) * 16 + hc) * 16 + hd) :: acc)
    | _, _, _, _ => none
  | '\\' :: e :: rest, acc =>
    if e = '"' then parseStrBody rest ('"' :: acc)
    else if e = '\\' then parseStrBody rest ('\\' :: acc)
    else if e = '/' then parseStrBody rest ('/' :: acc)
    else if e = 'b' then parseStrBody rest ('\x08' :: acc)
    else if e = 'f' then parseStrBody rest ('\x0c' :: acc)
    else if e = 'n' then parseStrBody rest ('\n' :: acc)
    else if e = 'r' then parseStrBody rest ('\r' :: acc)
    else if e = 't' then parseStrBody rest ('\t' :: acc)
    else none
  | c :: rest, acc =>
    if c.toNat < 32 then none else parseStrBody rest (c :: acc)

/-- Longest prefix of decimal digits and the remaining input. -/
def spanDigits : List Char → List Char × List Char
  | [] => ([], [])
  | c :: cs =>
    if c.isDigit then
      let p := spanDigits cs
      (c :: p.1, p.2)
    else ([], c :: cs)

/-- Decimal digits to a natural number, accumulator style. -/
def digitsToNat : List Char → Nat → Nat
  | [], acc => acc
  | c :: cs, acc => digitsToNat cs (acc * 10 + (c.toNat - 48))

/-- Optional fraction part `.digits` of a JSON number; `none` in the
pair means the fraction is absent (the outer `none` is a syntax error). -/
def parseFrac : List Char → Option (Option ℚ × List Char)
  | '.' :: cs =>
    match spanDigits cs with
    | ([], _) => none
    | (ds, rest) => some (some ((digitsToNat ds 0 : ℚ) / ((10 : ℚ) ^ ds.length)), rest)
  | cs => some (none, cs)

/-- Optional exponent part `e±digits` of a JSON number; `none` in the
pair means the exponent is absent. -/
def parseExp : List Char → Option (Option Int × List Char)
  | [] => some (none, [])
  | c :: cs =>
    if c = 'e' ∨ c = 'E' then
      match cs with
      | '+' :: r =>
        match spanDigits r with
        | ([], _) => none
        | (ds, rest) => some (some (digitsToNat ds 0 : Int), rest)
      | '-' :: r =>
        match spanDigits r with
        | ([], _) => none
        | (ds, rest) => some (some (-(digitsToNat ds 0 : Int)), rest)
      | _ =>
        match spanDigits cs with
        | ([], _) => none
        | (ds, rest) => some (some (digitsToNat ds 0 : Int), rest)
    else some (none, c :: cs)

/-- JSON number: optional minus, integer part without leading zeros,
optional fraction and exponent, exactly as `JSON.parse` accepts.
Fraction and exponent are folded in only when present, so plain
integer literals are a pure cast of their digits. -/
def parseNum (cs : List Char) : Option (ℚ × List Char) :=
  let p : Bool × List Char :=
    match cs with
    | '-' :: rest => (true, rest)
    | _ => (false, cs)
  match spanDigits p.2 with
  | ([], _) => none
  | (ds, rest) =>
    if 1 < ds.length ∧ ds.head? = some '0' then none
    else
      match parseFrac rest with
      | none => none
      | some (fro, rest2) =>
        match parseExp rest2 with
        | none => none
        | some (exo, rest3) =>
          let base : ℚ := (digitsToNat ds 0 : ℚ)
          let withFr : ℚ :=
            match fro with
            | none => base
            | some fr => base + fr
          let mag : ℚ :=
            match exo with
            | none => withFr
            | some ex => withFr * (10 : ℚ) ^ ex
          some (if p.1 then -mag else mag, rest3)

mutual

/-- Fueled recursive-descent parser for a JSON value; the fuel is an
upper bound on nesting depth (the driver passes the input length). -/
def parseVal : Nat → List Char → Option (Js × List Char)
  | 0, _ => none
  | Nat.succ fuel, cs =>
    match skipWs cs with
    | 'n' :: 'u' :: 'l' :: 'l' :: rest => some (Js.null, rest)
    | 't' :: 'r' :: 'u' :: 'e' :: rest => some (Js.bool true, rest)
    | 'f' :: 'a' :: 'l' :: 's' :: 'e' :: rest => some (Js.bool false, rest)
    | '"' :: rest =>
      match parseStrBody rest [] with
      | some (s, rest2) => some (Js.str s, rest2)
      | none => none
    | '[' :: rest =>
      match skipWs rest with
      | ']' :: rest2 => some (Js.arr [], rest2)
      | cs2 => parseArrElems fuel cs2 []
    | '\x7b' :: rest =>
      match skipWs rest with
      | '\x7d' :: rest2 => some (Js.obj [], rest2)
      | cs2 => parseObjFields fuel cs2 []
    | cs2 =>
      match parseNum cs2 with
      | some (q, rest) => some (Js.num q, rest)
      | none => none

/-- Elements of a JSON array after the opening bracket. -/
def parseArrElems : Nat → List Char → List Js → Option (Js × List Char)
  | 0, _, _ => none
  | Nat.succ fuel, cs, acc =>
    match parseVal fuel cs with
    | none => none
    | some (v, rest) =>
      match skipWs rest with
      | ',' :: rest2 => parseArrElems fuel rest2 (acc ++ [v])
      | ']' :: rest2 => some (Js.arr (acc ++ [v]), rest2)
      | _ => none

/-- Members of a JSON object after the opening brace; a repeated key
keeps its position and takes the later value, as in the runtime. -/
def parseObjFields : Nat → List Char → List (String × Js) → Option (Js × List Char)
  | 0, _, _ => none
  | Nat.succ fuel, cs, acc =>
    match skipWs cs with
    | '"' :: rest =>
      match parseStrBody rest [] with
      | none => none
      | some (k, rest2) =>
        match skipWs rest2 with
        | ':' :: rest3 =>
          match parseVal fuel rest3 with
          | none => none
          | some (v, rest4) =>
            match skipWs rest4 with
            | ',' :: rest5 => parseObjFields fuel rest5 (upsert acc k v)
            | '\x7d' :: rest5 => some (Js.obj (upsert acc k v), rest5)
            | _ => none
        | _ => none
    | _ => none

end

/-- The `JSON.parse` boundary: parse a whole string as one JSON value,
allowing surrounding whitespace and rejecting trailing input. -/
def jsonParse (s : String) : Option Js :=
  match parseVal (s.length + 1) s.data with
  | some (v, rest) => if (skipWs rest).isEmpty then some v else none
  | none => none

/-! ## Data model (`db/types`, `models/employees`) -/

/-- A leave request; dates are epoch milliseconds (what `new Date(x)`
yields for the request's date values).  They are modelled as present
and well-defined, so the missing-date guard of
`BaseAgent.validateRequest` cannot fire in the embedding. -/
structure LeaveRequest where
  id : String
  employeeId : String
  startDate : Int
  endDate : Int
  reason : Option String

/-- An employee record as consumed by the workflows. -/
structure Employee where
  id : String
  name : String
  position : String
  department : String
  leaveBalance : Int
  experienceLevel : Option String

/-- An HR manager, as used by the emergency-override agent. -/
structure HRManager where
  id : String
  name : String
  clearanceLevel : Int

/-- An `HRDecision` record.  `status` and `reason` are JavaScript
values because the parsers copy them from model replies without
validation (they may even be `undefined`); code-constructed decisions
use string literals.  `metadata` is the optional metadata object. -/
structure HRDecision where
  status : Js
  reason : Js
  metadata : Option (List (String × Js))

/-- Whether a decision carries `metadata.fastTracked === true`. -/
def HRDecision.isFastTracked (d : HRDecision) : Bool :=
  match d.metadata.bind (fun md => md.lookup "fastTracked") with
  | some (Js.bool b) => b
  | _ => false

/-- An onboarding plan record (`onboarding.ts`); `activities` is the
raw `result.plan` value copied from the reply. -/
structure OnboardingPlan where
  employeeId : String
  durationDays : Int
  activities : Js
  generatedAt : String

/-- An entry of the emergency-override audit trail
(`auditService.logOverride`). -/
structure OverrideRecord where
  requestId : String
  managerId : String
  justification : String
  timestamp : String

/-- A structured audit-log event (`auditLogger.log`). -/
structure AuditEvent where
  event : String
  metadata : Js

/-!  ## fastApproval.ts (demo fast-track agent) -/

/-- Threshold for the fast-track path. -/
def FAST_APPROVAL_THRESHOLD_DAYS : Int := 3

/-- Milliseconds in a day, the divisor used by the helper below. -/
def millisecondsPerDay : Int := 86400000

/-- Embeds `calculateBusinessDays` of `fastApproval.ts`.  Despite its
name it is `Math.round((end - start) / 86400000)`: the rounded raw
day difference, counting weekends.  `Math.round` is floor(x + 1/2)
(half rounds toward positive infinity), which on the rational
`(e - s) / d` is the floor division below. -/
def calculateBusinessDays (start : Int) (e : Int) : Int :=
  Int.fdiv (2 * (e - start) + millisecondsPerDay) (2 * millisecondsPerDay)

/-- Embeds `FastApprovalAgent.checkLeaveDuration`. -/
def FastApprovalAgent.checkLeaveDuration (request : LeaveRequest) : Bool :=
  calculateBusinessDays request.startDate request.endDate ≤ FAST_APPROVAL_THRESHOLD_DAYS

/-- Embeds `FastApprovalAgent.checkCalendarConflicts`: in demo mode the
code assumes no conflicts exist and returns `true` unconditionally. -/
def FastApprovalAgent.checkCalendarConflicts (_request : LeaveRequest) : Bool :=
  true

/-- Embeds `FastApprovalAgent.evaluate`.  `now` stands for the wall
clock read by `new Date().toISOString()`; the `logDemoEvent` call on
the fast-track branch is a fire-and-forget demo log and is elided.
Note the method consults no demo-mode flag: its result depends only on
the request. -/
def FastApprovalAgent.evaluate (request : LeaveRequest) (now : String) : HRDecision :=
  let isShortLeave := FastApprovalAgent.checkLeaveDuration request
  let hasNoConflicts := FastApprovalAgent.checkCalendarConflicts request
  if isShortLeave && hasNoConflicts then
    { status := Js.str "APPROVED",
      reason := Js.str "Qualifies for demo fast-track approval",
      metadata := some [("fastTracked", Js.bool true), ("checkedAt", Js.str now)] }
  else
    { status := Js.str "PENDING",
      reason := Js.str "Does not meet fast-track criteria",
      metadata := none }

/-!  ## emergencyOverride.ts (manager override agent) -/

/-- Embeds `EmergencyOverrideAgent.isAuthorizedForOverride`: level 3
and above can override. -/
def EmergencyOverrideAgent.isAuthorizedForOverride (manager : HRManager) : Bool :=
  manager.clearanceLevel ≥ 3

/-- Embeds `EmergencyOverrideAgent.forceApprove`.  The second component
is the list of override audit records written during the call (via
`auditService.logOverride`); the unauthorized branch throws before the
audit write is reached. -/
def EmergencyOverrideAgent.forceApprove (request : LeaveRequest) (manager : HRManager)
    (justification : String) (now : String) :
    Except String HRDecision × List OverrideRecord :=
  if !EmergencyOverrideAgent.isAuthorizedForOverride manager then
    (.error "Manager not authorized for emergency overrides", [])
  else
    (.ok { status := Js.str "APPROVED",
           reason := Js.str ("Emergency override: " ++ justification),
           metadata := some [("overriddenBy", Js.str manager.name),
                             ("normalPolicy", Js.str "Bypassed for demo purposes")] },
     [{ requestId := request.id, managerId := manager.id,
        justification := justification, timestamp := now }])

/-!  ## baseAgent.ts (shared agent helpers) -/

/-- Embeds `BaseAgent.validateRequest`: rejects a request whose start
date is after its end date.  (The preceding missing-dates guard cannot
fire here because dates are modelled as present integers.) -/
def BaseAgent.validateRequest (request : LeaveRequest) : Except String Unit :=
  if request.startDate > request.endDate then
    .error "Start date cannot be after end date"
  else .ok ()

/-- Embeds `BaseAgent.handleError`: converts a caught failure into a
terminal ERROR decision record (the AGENT_ERROR audit-log write it also
performs is elided; no claim observes it). -/
def BaseAgent.handleError (errorMessage : String) : HRDecision :=
  { status := Js.str "ERROR",
    reason := Js.str ("Failed to process request: " ++ errorMessage),
    metadata := none }

/-!  ## gptService.ts (centralized GPT service)

The mutable service state is `currentModel` plus the injected audit
log; the external model is an oracle argument `modelReply` (provider
failure or raw reply text).  Prompt construction is pure string
formatting with no effect on control flow and is not modelled
further; cost tracking and processing-time metadata depend on the wall
clock and are elided (no claim observes them). -/

/-- State of a `GPTService` instance that the claims observe. -/
structure GPTState where
  currentModel : String
  auditLog : List AuditEvent

/-- Fresh service state: `currentModel` initializes to gpt-3.5-turbo. -/
def GPTService.initialState : GPTState :=
  { currentModel := "gpt-3.5-turbo", auditLog := [] }

/-- Embeds `GPTService.upgradeToGPT4`: only when the `ENABLE_GPT4`
environment variable is the string `true` does it switch
`currentModel` to gpt-4-turbo and append a MODEL_UPGRADE audit event;
otherwise it does nothing.  `env` is the process environment. -/
def GPTService.upgradeToGPT4 (env : String → Option String) (st : GPTState) : GPTState :=
  if env "ENABLE_GPT4" = some "true" then
    { currentModel := "gpt-4-turbo",
      auditLog := st.auditLog ++
        [{ event := "MODEL_UPGRADE", metadata := Js.obj [("newModel", Js.str "gpt-4-turbo")] }] }
  else st

/-- Body of the `try` block of `GPTService.parseDecisionResponse` once
the reply is parsed: the property accesses `content.decision`,
`content.reason`, `content.confidence`.  `none` is the `TypeError`
raised when the parsed value is `null` (caught by the enclosing
`catch`). -/
def GPTService.decisionOfContent (currentModel : String) (content : Js) :
    Option HRDecision := do
  let d ← jsGet content "decision"
  let r ← jsGet content "reason"
  let c ← jsGet content "confidence"
  some { status := d, reason := r,
         metadata := some [("confidence", c), ("model", Js.str currentModel)] }

/-- Embeds `GPTService.parseDecisionResponse` for a raw text reply (the
`typeof content === 'string'` branch; chat replies are text).  Any
JSON-parse failure or `TypeError` inside the `try` is caught and
re-thrown as a parse error carrying the raw reply text. -/
def GPTService.parseDecisionResponse (currentModel : String) (content : String) :
    Except String HRDecision :=
  match jsonParse content with
  | none => .error ("Failed to parse AI response: " ++ content)
  | some j =>
    match GPTService.decisionOfContent currentModel j with
    | some d => .ok d
    | none => .error ("Failed to parse AI response: " ++ content)

/-- Issue-to-alert mapping inside `GPTService.parseComplianceResponse`:
`issue.type`, `issue.severity`, `issue.description` are copied, a
detection timestamp is stamped, and no `status` field is written.
`none` is a `TypeError` on a `null` array element. -/
def GPTService.complianceAlertOf (now : String) (issue : Js) : Option Js := do
  let t ← jsGet issue "type"
  let sv ← jsGet issue "severity"
  let d ← jsGet issue "description"
  some (Js.obj [("type", t), ("severity", sv), ("description", d),
                ("detectedAt", Js.str now)])

/-- Map a fallible function over a list, aborting at the first
failure — the behaviour of an `Array.prototype.map` whose callback can
raise a `TypeError` inside a `try` block. -/
def optionMapList {α β : Type} (f : α → Option β) : List α → Option (List β)
  | [] => some []
  | x :: xs => do
    let y ← f x
    let ys ← optionMapList f xs
    some (y :: ys)

/-- Embeds `GPTService.parseComplianceResponse` for a raw text reply.
`content.issues.map(...)` raises a `TypeError` when `issues` is absent
or not an array; the enclosing `catch` turns any such failure into a
parse error carrying the raw reply text. -/
def GPTService.parseComplianceResponse (content : String) (now : String) :
    Except String (List Js) :=
  match jsonParse content with
  | none => .error ("Failed to parse compliance response: " ++ content)
  | some j =>
    match jsGet j "issues" with
    | some (Js.arr xs) =>
      match optionMapList (GPTService.complianceAlertOf now) xs with
      | some alerts => .ok alerts
      | none => .error ("Failed to parse compliance response: " ++ content)
    | _ => .error ("Failed to parse compliance response: " ++ content)

/-- Organizational context interpolated into the leave prompt. -/
structure GPTLeaveContext where
  employeeLeaveBalance : Int
  teamCoverage : Int
  projectDeadlines : List String

/-- Embeds `GPTService.evaluateLeaveRequest`.  The method performs no
request validation: it builds the prompt from the request fields and
invokes the model unconditionally, so the second component (whether
the model endpoint was invoked during the call) is always `true`.  A
provider failure or parse failure is caught, logged, and re-thrown by
`GPTService.handleError` as an error wrapped with the service tag —
it is not converted into an ERROR decision record. -/
def GPTService.evaluateLeaveRequest (_request : LeaveRequest) (_context : GPTLeaveContext)
    (modelReply : Except String String) (st : GPTState) :
    Except String HRDecision × Bool :=
  match modelReply with
  | .error e => (.error ("[GPTService] " ++ e), true)
  | .ok content =>
    match GPTService.parseDecisionResponse st.currentModel content with
    | .error e => (.error ("[GPTService] " ++ e), true)
    | .ok d => (.ok d, true)

/-- HR data snapshot interpolated into the compliance prompt. -/
structure GPTComplianceData where
  workHours : List (String × Int)
  contracts : List (String × String)

/-- Embeds `GPTService.scanForComplianceIssues`: invokes the model
unconditionally, and a caught provider or parse failure is re-thrown
wrapped with the service tag (never converted into a result record). -/
def GPTService.scanForComplianceIssues (_data : GPTComplianceData)
    (modelReply : Except String String) (_st : GPTState) (now : String) :
    Except String (List Js) × Bool :=
  match modelReply with
  | .error e => (.error ("[GPTService] " ++ e), true)
  | .ok content =>
    match GPTService.parseComplianceResponse content now with
    | .error e => (.error ("[GPTService] " ++ e), true)
    | .ok alerts => (.ok alerts, true)

/-!  ## leaveApproval.ts (LeaveApprovalWorkflow) -/

/-- Organizational context of `LeaveApprovalWorkflow.evaluate`. -/
structure LeaveContext where
  teamCoverage : Int
  criticalProjects : List String

/-- Modelled from the spec: `BaseWorkflow.validateInputs` — the base
class `baseWorkflow.ts` is not among the sources.  Per the spec,
validation errors (malformed request dates) are raised before any
external call and the invariant start date ≤ end date must fail
validation; the error text follows `BaseAgent.validateRequest`, the
in-source sibling helper. -/
def BaseWorkflow.validateInputs (request : LeaveRequest) (_employee : Employee) :
    Except String Unit :=
  if request.startDate > request.endDate then
    .error "Start date cannot be after end date"
  else .ok ()

/-- Modelled from the spec: `BaseWorkflow.handleError` — the base class
`baseWorkflow.ts` is not among the sources.  Per the spec, the leave
workflow converts a caught failure into a terminal ERROR status record
rather than re-raising; the record shape follows
`BaseAgent.handleError`, the in-source sibling helper. -/
def BaseWorkflow.handleError (errorMessage : String) : HRDecision :=
  { status := Js.str "ERROR",
    reason := Js.str ("Failed to process request: " ++ errorMessage),
    metadata := none }

/-- Embeds `LeaveApprovalWorkflow.parseResponse`: `JSON.parse` the
reply text, then copy `result.status`, `result.reason`,
`result.confidence` and stamp `evaluatedAt`; any failure inside the
`try` becomes a parse error carrying the raw reply text. -/
def LeaveApprovalWorkflow.parseResponse (content : String) (now : String) :
    Except String HRDecision :=
  match jsonParse content with
  | none => .error ("Failed to parse AI response: " ++ content)
  | some j =>
    match (do
      let stat ← jsGet j "status"
      let r ← jsGet j "reason"
      let c ← jsGet j "confidence"
      some { status := stat, reason := r,
             metadata := some [("confidence", c), ("evaluatedAt", Js.str now)] } :
        Option HRDecision) with
    | some d => .ok d
    | none => .error ("Failed to parse AI response: " ++ content)

/-- Embeds `LeaveApprovalWorkflow.evaluate`.  The whole body runs in a
`try` whose `catch` returns `handleError(error)`, so the method never
re-raises: validation failures, provider failures and parse failures
all come back as ERROR decision records.  The second component records
whether the model was invoked: validation runs first, so a validation
failure means no model call. -/
def LeaveApprovalWorkflow.evaluate (request : LeaveRequest) (employee : Employee)
    (_context : LeaveContext) (modelReply : Except String String) (now : String) :
    HRDecision × Bool :=
  match BaseWorkflow.validateInputs request employee with
  | .error e => (BaseWorkflow.handleError e, false)
  | .ok _ =>
    match modelReply with
    | .error e => (BaseWorkflow.handleError e, true)
    | .ok content =>
      match LeaveApprovalWorkflow.parseResponse content now with
      | .error e => (BaseWorkflow.handleError e, true)
      | .ok d => (d, true)

/-!  ## complianceCheck.ts (ComplianceCheckWorkflow) -/

/-- HR data snapshot passed to `ComplianceCheckWorkflow.scan`. -/
structure ComplianceScanData where
  workHours : List (String × Int)
  contracts : List (String × String)
  leaveRecords : List String

/-- Enumerable own fields contributed by an object spread `{...v}`:
the fields of an object, nothing for `null` and other primitives
(a string would spread to indexed characters; the pipeline never
produces one where it matters and that case is not modelled). -/
def spreadFields : Js → List (String × Js)
  | .obj fs => fs
  | _ => []

/-- Issue-to-alert mapping inside `ComplianceCheckWorkflow.scan`:
`{...issue, detectedAt: ..., status: 'OPEN'}` — the spread plus the two
stamped fields, later keys overwriting earlier ones.  A spread never
raises, so this mapping is total. -/
def ComplianceCheckWorkflow.scanAlert (now : String) (issue : Js) : Js :=
  Js.obj (upsertAll (spreadFields issue)
    [("detectedAt", Js.str now), ("status", Js.str "OPEN")])

/-- Embeds `ComplianceCheckWorkflow.scan`.  There is no `try` around
the chain invocation, so a provider failure propagates as-is; only the
`JSON.parse`/mapping step is wrapped, and its failures are re-thrown
as a parse error carrying the raw reply text.  The prompt-side
serialization of `data` is pure formatting and is elided. -/
def ComplianceCheckWorkflow.scan (_data : ComplianceScanData)
    (modelReply : Except String String) (now : String) : Except String (List Js) :=
  match modelReply with
  | .error e => .error e
  | .ok response =>
    match jsonParse response with
    | none => .error ("Failed to parse compliance scan results: " ++ response)
    | some j =>
      match jsGet j "issues" with
      | some (Js.arr xs) => .ok (xs.map (ComplianceCheckWorkflow.scanAlert now))
      | _ => .error ("Failed to parse compliance scan results: " ++ response)

/-!  ## onboarding.ts (OnboardingWorkflow) -/

/-- Embeds `OnboardingWorkflow.generatePlan`.  No `try` surrounds the
model invocation, so a provider failure propagates; the parse step
re-throws its failures as a parse error carrying the raw reply text.
`result.plan` is copied without shape validation (absent gives
`undefined`). -/
def OnboardingWorkflow.generatePlan (employee : Employee) (duration : Int)
    (modelReply : Except String String) (now : String) : Except String OnboardingPlan :=
  match modelReply with
  | .error e => .error e
  | .ok content =>
    match jsonParse content with
    | none => .error ("Failed to parse onboarding plan: " ++ content)
    | some j =>
      match jsGet j "plan" with
      | none => .error ("Failed to parse onboarding plan: " ++ content)
      | some plan =>
        .ok { employeeId := employee.id, durationDays := duration,
              activities := plan, generatedAt := now }

/-! ## Spec-side definitions and concrete inputs -/

/-- Stated from the spec's words, for comparison with the parser: a
reply value matches the decision schema announced in the gptService
prompt when `decision` is one of the three announced statuses,
`reason` is a string and `confidence` is a number. -/
def decisionSchemaGpt (j : Js) : Prop :=
  (∃ d, jsGet j "decision" = some (Js.str d) ∧
    (d = "APPROVED" ∨ d = "DENIED" ∨ d = "FLAGGED")) ∧
  (∃ r, jsGet j "reason" = some (Js.str r)) ∧
  (∃ c, jsGet j "confidence" = some (Js.num c))

/-- Stated from the spec's words: the same schema for the
leave-approval workflow prompt, whose status key is `status`. -/
def decisionSchemaWorkflow (j : Js) : Prop :=
  (∃ d, jsGet j "status" = some (Js.str d) ∧
    (d = "APPROVED" ∨ d = "DENIED" ∨ d = "FLAGGED")) ∧
  (∃ r, jsGet j "reason" = some (Js.str r)) ∧
  (∃ c, jsGet j "confidence" = some (Js.num c))

/-- Numeric confidence carried by a decision's metadata, when any. -/
def HRDecision.confidenceQ (d : HRDecision) : Option ℚ :=
  match d.metadata.bind (fun md => md.lookup "confidence") with
  | some (Js.num q) => some q
  | _ => none

/-- Tuesday 2024-01-02T00:00:00Z in epoch milliseconds. -/
def jan2_2024 : Int := 1704153600000

/-- Wednesday 2024-01-03T00:00:00Z in epoch milliseconds. -/
def jan3_2024 : Int := 1704240000000

/-- Friday 2024-01-05T00:00:00Z in epoch milliseconds. -/
def jan5_2024 : Int := 1704412800000

/-- Wednesday 2024-01-10T00:00:00Z in epoch milliseconds. -/
def jan10_2024 : Int := 1704844800000

/-- The spec's worked example: a two-day flu request, Tue 2024-01-02 to
Wed 2024-01-03. -/
def fluRequest : LeaveRequest :=
  { id := "req-1", employeeId := "emp-1", startDate := jan2_2024,
    endDate := jan3_2024, reason := some "flu" }

/-- A request whose start date (2024-01-10) is strictly after its end
date (2024-01-05). -/
def invertedRequest : LeaveRequest :=
  { id := "req-2", employeeId := "emp-2", startDate := jan10_2024,
    endDate := jan5_2024, reason := none }

/-- A sample employee for workflow invocations. -/
def sampleEmployee : Employee :=
  { id := "emp-1", name := "Amina", position := "Engineer",
    department := "Platform", leaveBalance := 12, experienceLevel := none }

/-- A sample organizational context for the leave workflow. -/
def sampleContext : LeaveContext :=
  { teamCoverage := 80, criticalProjects := [] }

/-- A sample organizational context for the GPT service. -/
def sampleGptContext : GPTLeaveContext :=
  { employeeLeaveBalance := 12, teamCoverage := 80, projectDeadlines := [] }

/-- A sample HR data snapshot for the compliance workflow. -/
def sampleScanData : ComplianceScanData :=
  { workHours := [("emp-1", 45)], contracts := [("emp-1", "permanent")],
    leaveRecords := [] }

/-- A fixed wall-clock reading for concrete evaluations. -/
def now0 : String := "2024-01-02T09:00:00.000Z"

/-- A manager below the override clearance threshold. -/
def juniorManager : HRManager :=
  { id := "mgr-1", name := "Jo", clearanceLevel := 2 }

/-- A manager at the override clearance threshold. -/
def seniorManager : HRManager :=
  { id := "mgr-2", name := "Ada", clearanceLevel := 3 }

/-- A schema-conforming decision reply whose confidence is the number
2, outside [0,1]. -/
def badConfidenceReply : String :=
  "\x7b\"decision\":\"APPROVED\",\"reason\":\"ok\",\"confidence\":2\x7d"

/-- A schema-conforming decision reply with confidence 1, for the
workflow parser (status key `status`). -/
def workflowDecisionReply : String :=
  "\x7b\"status\":\"DENIED\",\"reason\":\"low coverage\",\"confidence\":1\x7d"

/-- A compliance reply carrying a single issue, without any `status`
field of its own. -/
def oneIssueReply : String :=
  "\x7b\"issues\":[\x7b\"type\":\"overtime\",\"severity\":\"HIGH\",\"description\":\"too many hours\"\x7d]\x7d"

/-! ## Helper lemmas -/

/-- Looking up the key just upserted yields the new value. -/
theorem lookup_upsert_self (fs : List (String × Js)) (k : String) (v : Js) :
    (upsert fs k v).lookup k = some v := by
  induction fs with
  | nil => simp [upsert]
  | cons p fs ih =>
    obtain ⟨k0, v0⟩ := p
    by_cases h : k0 = k
    · simp [upsert, h]
    · rw [upsert]
      simp only [h, if_false, List.lookup]
      rw [show (k == k0) = false from beq_eq_false_iff_ne.mpr (Ne.symm h)]
      exact ih

/-- Upserting one key does not change lookups of another. -/
theorem lookup_upsert_other (fs : List (String × Js)) (k k2 : String) (v : Js)
    (hne : k2 ≠ k) : (upsert fs k v).lookup k2 = fs.lookup k2 := by
  induction fs with
  | nil =>
    rw [upsert]
    simp only [List.lookup]
    rw [show (k2 == k) = false from beq_eq_false_iff_ne.mpr hne]
  | cons p fs ih =>
    obtain ⟨k0, v0⟩ := p
    by_cases h : k0 = k
    · subst h
      rw [upsert]
      simp only [if_pos rfl, List.lookup]
      rw [show (k2 == k0) = false from beq_eq_false_iff_ne.mpr hne]
    · rw [upsert]
      simp only [h, if_false, List.lookup]
      cases hb : (k2 == k0) with
      | true => rfl
      | false => exact ih

/-- Every element produced by a fallible map comes from some element of
the input list. -/
theorem mem_of_optionMapList {α β : Type} (f : α → Option β) :
    ∀ (xs : List α) (ys : List β), optionMapList f xs = some ys →
      ∀ b ∈ ys, ∃ a ∈ xs, f a = some b := by
  intro xs
  induction xs with
  | nil =>
    intro ys h b hb
    simp [optionMapList] at h
    subst h
    simp at hb
  | cons x xs ih =>
    intro ys h b hb
    simp only [optionMapList, Option.bind_eq_bind, Option.bind_eq_some] at h
    obtain ⟨y, hy, ys2, hys2, hcons⟩ := h
    obtain rfl : y :: ys2 = ys := Option.some.inj hcons
    rcases List.mem_cons.mp hb with hb | hb
    · exact ⟨x, List.mem_cons_self x xs, hb ▸ hy⟩
    · obtain ⟨a, ha, hfa⟩ := ih ys2 hys2 b hb
      exact ⟨a, List.mem_cons_of_mem x ha, hfa⟩

/-! ## Claims -/

/-- C1 counterexample.  The claim — fast-track approval is returned if
and only if the duration in business days is at most 3 AND the demo
mode flag is enabled, and with the flag disabled the standard pipeline
is never bypassed — is false on the code: `FastApprovalAgent.evaluate`
consults no demo-mode flag, so with the flag disabled the two-day
request `fluRequest` is still fast-tracked. -/
theorem fastApproval_demo_gate_counterexample :
    ¬ (∀ (demoEnabled : Bool) (r : LeaveRequest) (now : String),
        (FastApprovalAgent.evaluate r now).isFastTracked =
          (decide (calculateBusinessDays r.startDate r.endDate ≤
            FAST_APPROVAL_THRESHOLD_DAYS) && demoEnabled)) := by
  intro h
  have h0 := h false fluRequest now0
  have h1 : (FastApprovalAgent.evaluate fluRequest now0).isFastTracked = true := by decide
  rw [h1, Bool.and_false] at h0
  exact Bool.noConfusion h0

/-- C1 (amended): `FastApprovalAgent.evaluate` returns a fast-track
approval (status APPROVED, metadata.fastTracked = true) iff the
duration computed by the file's own `calculateBusinessDays` — the
rounded raw day difference, weekends included — is at most 3;
otherwise the decision is PENDING.  No demo-mode flag is consulted:
demo-only use is a caller-side convention. -/
theorem fastApproval_fastTrack_iff (r : LeaveRequest) (now : String) :
    ((FastApprovalAgent.evaluate r now).isFastTracked = true ↔
      calculateBusinessDays r.startDate r.endDate ≤ FAST_APPROVAL_THRESHOLD_DAYS) ∧
    ((FastApprovalAgent.evaluate r now).isFastTracked = true →
      (FastApprovalAgent.evaluate r now).status = Js.str "APPROVED") ∧
    ((FastApprovalAgent.evaluate r now).isFastTracked = false →
      (FastApprovalAgent.evaluate r now).status = Js.str "PENDING") := by
  unfold FastApprovalAgent.evaluate FastApprovalAgent.checkLeaveDuration
    FastApprovalAgent.checkCalendarConflicts
  by_cases hle : calculateBusinessDays r.startDate r.endDate ≤ FAST_APPROVAL_THRESHOLD_DAYS
  · simp [hle, HRDecision.isFastTracked, List.lookup]
  · simp [hle, HRDecision.isFastTracked, List.lookup]

/-- C1 witness: the two-day request is fast-tracked and APPROVED. -/
theorem fastApproval_fastTrack_iff_witness :
    (FastApprovalAgent.evaluate fluRequest now0).isFastTracked = true ∧
    (FastApprovalAgent.evaluate fluRequest now0).status = Js.str "APPROVED" := by
  have h := fastApproval_fastTrack_iff fluRequest now0
  have hft : (FastApprovalAgent.evaluate fluRequest now0).isFastTracked = true :=
    h.1.mpr (by decide)
  exact ⟨hft, h.2.1 hft⟩

/-- C8: the spec's worked example — the flu request from Tue 2024-01-02
to Wed 2024-01-03 comes back APPROVED with metadata.fastTracked =
true (the demo-mode flag plays no role in the code, so this holds with
demo mode on in particular). -/
theorem fastApproval_flu_example :
    (FastApprovalAgent.evaluate fluRequest now0).status = Js.str "APPROVED" ∧
    (FastApprovalAgent.evaluate fluRequest now0).metadata.bind
      (fun md => md.lookup "fastTracked") = some (Js.bool true) := by
  constructor <;> rfl

/-- C9: `FastApprovalAgent.evaluate` is total by construction (its
embedding is a total function) and every decision it returns is either
APPROVED with a reason and fastTracked metadata or PENDING with a
reason — never DENIED, FLAGGED or ERROR. -/
theorem fastApproval_total_status (r : LeaveRequest) (now : String) :
    ((FastApprovalAgent.evaluate r now).status = Js.str "APPROVED" ∧
      (FastApprovalAgent.evaluate r now).isFastTracked = true ∧
      (FastApprovalAgent.evaluate r now).reason =
        Js.str "Qualifies for demo fast-track approval") ∨
    ((FastApprovalAgent.evaluate r now).status = Js.str "PENDING" ∧
      (FastApprovalAgent.evaluate r now).reason =
        Js.str "Does not meet fast-track criteria") := by
  unfold FastApprovalAgent.evaluate FastApprovalAgent.checkLeaveDuration
    FastApprovalAgent.checkCalendarConflicts
  by_cases hle : calculateBusinessDays r.startDate r.endDate ≤ FAST_APPROVAL_THRESHOLD_DAYS
  · left
    simp [hle, HRDecision.isFastTracked, List.lookup]
  · right
    simp [hle]

/-- C5: `EmergencyOverrideAgent.forceApprove` fails with an
authorization error and writes no audit record when the manager's
clearance level is below 3; when the clearance level is at least 3 it
writes an override audit record carrying the request id, manager id
and justification, and returns an APPROVED decision. -/
theorem emergencyOverride_auth_and_audit (r : LeaveRequest) (m : HRManager)
    (justification : String) (now : String) :
    (m.clearanceLevel < 3 →
      (EmergencyOverrideAgent.forceApprove r m justification now).1 =
        .error "Manager not authorized for emergency overrides" ∧
      (EmergencyOverrideAgent.forceApprove r m justification now).2 = []) ∧
    (3 ≤ m.clearanceLevel →
      (EmergencyOverrideAgent.forceApprove r m justification now).2 =
        [{ requestId := r.id, managerId := m.id, justification := justification,
           timestamp := now }] ∧
      (EmergencyOverrideAgent.forceApprove r m justification now).1 =
        .ok { status := Js.str "APPROVED",
              reason := Js.str ("Emergency override: " ++ justification),
              metadata := some [("overriddenBy", Js.str m.name),
                                ("normalPolicy", Js.str "Bypassed for demo purposes")] }) := by
  unfold EmergencyOverrideAgent.forceApprove EmergencyOverrideAgent.isAuthorizedForOverride
  constructor
  · intro hlt
    have hb : ¬ (3 ≤ m.clearanceLevel) := not_le.mpr hlt
    simp [hb, ge_iff_le]
  · intro hge
    simp [hge, ge_iff_le]

/-- C5 witness: a clearance-2 manager is refused with no audit record;
a clearance-3 manager gets the APPROVED decision and the audit record
is written. -/
theorem emergencyOverride_auth_and_audit_witness :
    ((EmergencyOverrideAgent.forceApprove fluRequest juniorManager "urgent" now0).2 = [] ∧
      (EmergencyOverrideAgent.forceApprove fluRequest seniorManager "urgent" now0).2 =
        [{ requestId := fluRequest.id, managerId := seniorManager.id,
           justification := "urgent", timestamp := now0 }]) :=
  ⟨((emergencyOverride_auth_and_audit fluRequest juniorManager "urgent" now0).1
      (by decide)).2,
   ((emergencyOverride_auth_and_audit fluRequest seniorManager "urgent" now0).2
      (by decide)).1⟩

/-- C10: `GPTService.upgradeToGPT4` switches `currentModel` to
gpt-4-turbo and appends a MODEL_UPGRADE audit event exactly when the
`ENABLE_GPT4` environment variable is the string `true`; otherwise the
state (model and audit log) is returned unchanged. -/
theorem upgradeToGPT4_gated (env : String → Option String) (st : GPTState) :
    (env "ENABLE_GPT4" = some "true" →
      (GPTService.upgradeToGPT4 env st).currentModel = "gpt-4-turbo" ∧
      (GPTService.upgradeToGPT4 env st).auditLog =
        st.auditLog ++ [{ event := "MODEL_UPGRADE",
                          metadata := Js.obj [("newModel", Js.str "gpt-4-turbo")] }]) ∧
    (env "ENABLE_GPT4" ≠ some "true" →
      GPTService.upgradeToGPT4 env st = st) := by
  unfold GPTService.upgradeToGPT4
  constructor
  · intro h
    simp [h]
  · intro h
    simp [h]

/-- C10 witness: with `ENABLE_GPT4=true` the model switches; with the
variable unset the state is untouched. -/
theorem upgradeToGPT4_gated_witness :
    (GPTService.upgradeToGPT4 (fun _ => some "true") GPTService.initialState).currentModel =
        "gpt-4-turbo" ∧
    GPTService.upgradeToGPT4 (fun _ => none) GPTService.initialState =
        GPTService.initialState :=
  ⟨((upgradeToGPT4_gated (fun _ => some "true") GPTService.initialState).1 rfl).1,
   (upgradeToGPT4_gated (fun _ => none) GPTService.initialState).2 (by simp)⟩

/-- C2: at the failing input `invertedRequest` (start 2024-01-10 after
end 2024-01-05), `BaseAgent.validateRequest` and the leave workflow do
fail validation with no model call — but `GPTService.evaluateLeaveRequest`
performs no date validation at all and invokes the model regardless of
the reply oracle, contradicting the claim that validation fails before
any model call in every leave-evaluation operation. -/
theorem gptService_skips_validation :
    BaseAgent.validateRequest invertedRequest =
      .error "Start date cannot be after end date" ∧
    (LeaveApprovalWorkflow.evaluate invertedRequest sampleEmployee sampleContext
        (.ok "unused") now0).2 = false ∧
    (LeaveApprovalWorkflow.evaluate invertedRequest sampleEmployee sampleContext
        (.ok "unused") now0).1.status = Js.str "ERROR" ∧
    (∀ reply : Except String String,
      (GPTService.evaluateLeaveRequest invertedRequest sampleGptContext reply
          GPTService.initialState).2 = true) := by
  refine ⟨rfl, rfl, rfl, ?_⟩
  intro reply
  cases reply with
  | error e => rfl
  | ok content =>
    unfold GPTService.evaluateLeaveRequest
    cases h : GPTService.parseDecisionResponse GPTService.initialState.currentModel content <;>
      simp [h]

/-- C3 counterexample: a reply matching the decision schema whose
confidence is the number 2 maps to a decision whose confidence is 2،
outside [0,1] — the mappers copy confidence without validation. -/
theorem parse_decision_confidence_counterexample :
    (GPTService.parseDecisionResponse "gpt-3.5-turbo" badConfidenceReply).toOption.bind
      HRDecision.confidenceQ = some 2 ∧
    ¬ ((0 : ℚ) ≤ 2 ∧ (2 : ℚ) ≤ 1) := by
  constructor
  · rfl
  · intro h
    exact absurd h.2 (by norm_num)

/-- C3 (amended): for a reply matching the decision schema, both
decision mappers produce a decision whose status is exactly the
reply's decision/status field — hence one of the five statuses, indeed
one of the three the prompt announces — and whose confidence is the
reply's confidence number copied unvalidated, so it lies in [0,1]
exactly when the reply's number does. -/
theorem parse_decision_schema_status (s : String) (j : Js) (m : String) (now : String)
    (hparse : jsonParse s = some j) :
    (decisionSchemaGpt j →
      ∃ d, GPTService.parseDecisionResponse m s = .ok d ∧
        (d.status = Js.str "APPROVED" ∨ d.status = Js.str "DENIED" ∨
          d.status = Js.str "FLAGGED" ∨ d.status = Js.str "PENDING" ∨
          d.status = Js.str "ERROR") ∧
        (∀ t, jsGet j "decision" = some (Js.str t) → d.status = Js.str t) ∧
        (∀ c : ℚ, jsGet j "confidence" = some (Js.num c) → d.confidenceQ = some c)) ∧
    (decisionSchemaWorkflow j →
      ∃ d, LeaveApprovalWorkflow.parseResponse s now = .ok d ∧
        (d.status = Js.str "APPROVED" ∨ d.status = Js.str "DENIED" ∨
          d.status = Js.str "FLAGGED" ∨ d.status = Js.str "PENDING" ∨
          d.status = Js.str "ERROR") ∧
        (∀ t, jsGet j "status" = some (Js.str t) → d.status = Js.str t) ∧
        (∀ c : ℚ, jsGet j "confidence" = some (Js.num c) → d.confidenceQ = some c)) := by
  constructor
  · rintro ⟨⟨d0, hd, hd3⟩, ⟨r0, hr⟩, ⟨c0, hc⟩⟩
    have heq : GPTService.parseDecisionResponse m s =
        .ok { status := Js.str d0, reason := Js.str r0,
              metadata := some [("confidence", Js.num c0), ("model", Js.str m)] } := by
      unfold GPTService.parseDecisionResponse GPTService.decisionOfContent
      simp only [hparse]
      simp only [hd, hr, hc]
      rfl
    refine ⟨_, heq, ?_, ?_, ?_⟩
    · rcases hd3 with h3 | h3 | h3 <;> subst h3
      · exact Or.inl rfl
      · exact Or.inr (Or.inl rfl)
      · exact Or.inr (Or.inr (Or.inl rfl))
    · intro t ht
      rw [hd] at ht
      rw [Js.str.inj (Option.some.inj ht)]
    · intro c hcc
      rw [hc] at hcc
      rw [← Js.num.inj (Option.some.inj hcc)]
      rfl
  · rintro ⟨⟨d0, hd, hd3⟩, ⟨r0, hr⟩, ⟨c0, hc⟩⟩
    have heq : LeaveApprovalWorkflow.parseResponse s now =
        .ok { status := Js.str d0, reason := Js.str r0,
              metadata := some [("confidence", Js.num c0), ("evaluatedAt", Js.str now)] } := by
      unfold LeaveApprovalWorkflow.parseResponse
      simp only [hparse]
      simp only [hd, hr, hc]
      rfl
    refine ⟨_, heq, ?_, ?_, ?_⟩
    · rcases hd3 with h3 | h3 | h3 <;> subst h3
      · exact Or.inl rfl
      · exact Or.inr (Or.inl rfl)
      · exact Or.inr (Or.inr (Or.inl rfl))
    · intro t ht
      rw [hd] at ht
      rw [Js.str.inj (Option.some.inj ht)]
    · intro c hcc
      rw [hc] at hcc
      rw [← Js.num.inj (Option.some.inj hcc)]
      rfl

/-- C3 witness: the two schema-conforming sample replies parse to APPROVED
and DENIED decisions respectively. -/
theorem parse_decision_schema_status_witness :
    (GPTService.parseDecisionResponse "gpt-3.5-turbo" badConfidenceReply).toOption.map
      HRDecision.status = some (Js.str "APPROVED") ∧
    (LeaveApprovalWorkflow.parseResponse workflowDecisionReply now0).toOption.map
      HRDecision.status = some (Js.str "DENIED") := by
  constructor
  · obtain ⟨d, hd1, _, hd2, _⟩ :=
      (parse_decision_schema_status badConfidenceReply
        (Js.obj [("decision", Js.str "APPROVED"), ("reason", Js.str "ok"),
                 ("confidence", Js.num 2)]) "gpt-3.5-turbo" now0 rfl).1
        ⟨⟨"APPROVED", rfl, Or.inl rfl⟩, ⟨"ok", rfl⟩, ⟨2, rfl⟩⟩
    rw [hd1]
    show some d.status = some (Js.str "APPROVED")
    rw [hd2 "APPROVED" rfl]
  · obtain ⟨d, hd1, _, hd2, _⟩ :=
      (parse_decision_schema_status workflowDecisionReply
        (Js.obj [("status", Js.str "DENIED"), ("reason", Js.str "low coverage"),
                 ("confidence", Js.num 1)]) "gpt-3.5-turbo" now0 rfl).2
        ⟨⟨"DENIED", rfl, Or.inr (Or.inl rfl)⟩, ⟨"low coverage", rfl⟩, ⟨1, rfl⟩⟩
    rw [hd1]
    show some d.status = some (Js.str "DENIED")
    rw [hd2 "DENIED" rfl]

/-- C4: every reply that is not valid JSON makes each of the four
response-parsing operations fail with a parse error carrying the raw
reply text; only the error is produced, never a partial result
record. -/
theorem parse_errors_carry_raw_reply (s : String) (m : String) (now : String)
    (h : jsonParse s = none) :
    GPTService.parseDecisionResponse m s =
      .error ("Failed to parse AI response: " ++ s) ∧
    GPTService.parseComplianceResponse s now =
      .error ("Failed to parse compliance response: " ++ s) ∧
    LeaveApprovalWorkflow.parseResponse s now =
      .error ("Failed to parse AI response: " ++ s) ∧
    (∀ data, ComplianceCheckWorkflow.scan data (.ok s) now =
      .error ("Failed to parse compliance scan results: " ++ s)) := by
  refine ⟨?_, ?_, ?_, ?_⟩
  · unfold GPTService.parseDecisionResponse
    rw [h]
  · unfold GPTService.parseComplianceResponse
    rw [h]
  · unfold LeaveApprovalWorkflow.parseResponse
    rw [h]
  · intro data
    unfold ComplianceCheckWorkflow.scan
    simp only [h]

/-- C4 witness: on the reply "not json" the decision parser and the
compliance workflow fail with the raw text embedded in the error. -/
theorem parse_errors_carry_raw_reply_witness :
    GPTService.parseDecisionResponse "gpt-3.5-turbo" "not json" =
      .error ("Failed to parse AI response: " ++ "not json") ∧
    ComplianceCheckWorkflow.scan sampleScanData (.ok "not json") now0 =
      .error ("Failed to parse compliance scan results: " ++ "not json") :=
  ⟨(parse_errors_carry_raw_reply "not json" "gpt-3.5-turbo" now0 rfl).1,
   (parse_errors_carry_raw_reply "not json" "gpt-3.5-turbo" now0 rfl).2.2.2 sampleScanData⟩

/-- C6 counterexample: `GPTService.evaluateLeaveRequest` is a
leave-decision operation, yet a caught provider failure is logged and
re-raised (wrapped with the service tag) rather than converted into a
terminal ERROR decision record. -/
theorem gptService_reraise_counterexample :
    (GPTService.evaluateLeaveRequest fluRequest sampleGptContext
        (.error "network failure") GPTService.initialState).1 =
      .error "[GPTService] network failure" := rfl

/-- C6 (amended): failures caught inside `LeaveApprovalWorkflow.evaluate`
(validation, provider or parse failures) are converted into terminal
ERROR decision records and never re-raised, while the compliance-scan
and onboarding-plan operations propagate failures to the immediate
caller; however `GPTService.evaluateLeaveRequest` — also a
leave-decision operation — re-raises a caught failure (wrapped with the
service tag) instead of converting it. -/
theorem failure_conversion_split (req : LeaveRequest) (emp : Employee)
    (ctx : LeaveContext) (gctx : GPTLeaveContext) (data : ComplianceScanData)
    (gdata : GPTComplianceData) (st : GPTState) (e : String) (s : String)
    (now : String) (dur : Int) :
    (LeaveApprovalWorkflow.evaluate req emp ctx (.error e) now).1.status =
      Js.str "ERROR" ∧
    (jsonParse s = none →
      (LeaveApprovalWorkflow.evaluate req emp ctx (.ok s) now).1.status =
        Js.str "ERROR") ∧
    (req.startDate > req.endDate →
      ∀ reply, (LeaveApprovalWorkflow.evaluate req emp ctx reply now).1.status =
        Js.str "ERROR") ∧
    ComplianceCheckWorkflow.scan data (.error e) now = .error e ∧
    OnboardingWorkflow.generatePlan emp dur (.error e) now = .error e ∧
    (GPTService.scanForComplianceIssues gdata (.error e) st now).1 =
      .error ("[GPTService] " ++ e) ∧
    (GPTService.evaluateLeaveRequest req gctx (.error e) st).1 =
      .error ("[GPTService] " ++ e) := by
  refine ⟨?_, ?_, ?_, rfl, rfl, rfl, rfl⟩
  · unfold LeaveApprovalWorkflow.evaluate
    cases hv : BaseWorkflow.validateInputs req emp with
    | error e2 => simp [hv, BaseWorkflow.handleError]
    | ok u => simp [hv, BaseWorkflow.handleError]
  · intro hs
    unfold LeaveApprovalWorkflow.evaluate
    cases hv : BaseWorkflow.validateInputs req emp with
    | error e2 => simp [hv, BaseWorkflow.handleError]
    | ok u =>
      have hp : LeaveApprovalWorkflow.parseResponse s now =
          .error ("Failed to parse AI response: " ++ s) := by
        unfold LeaveApprovalWorkflow.parseResponse
        rw [hs]
      simp [hv, hp, BaseWorkflow.handleError]
  · intro hgt reply
    have hv : BaseWorkflow.validateInputs req emp =
        .error "Start date cannot be after end date" := by
      unfold BaseWorkflow.validateInputs
      rw [if_pos hgt]
    unfold LeaveApprovalWorkflow.evaluate
    simp [hv, BaseWorkflow.handleError]

/-- C6 witness: a parse failure and a validation failure both come back
from the leave workflow as ERROR decision records. -/
theorem failure_conversion_split_witness :
    (LeaveApprovalWorkflow.evaluate fluRequest sampleEmployee sampleContext
        (.ok "not json") now0).1.status = Js.str "ERROR" ∧
    (LeaveApprovalWorkflow.evaluate invertedRequest sampleEmployee sampleContext
        (.ok "\x7b\x7d") now0).1.status = Js.str "ERROR" :=
  ⟨(failure_conversion_split fluRequest sampleEmployee sampleContext sampleGptContext
      sampleScanData ⟨[], []⟩ GPTService.initialState "err" "not json" now0 30).2.1 rfl,
   (failure_conversion_split invertedRequest sampleEmployee sampleContext sampleGptContext
      sampleScanData ⟨[], []⟩ GPTService.initialState "err" "not json" now0 30).2.2.1
      (by decide) (.ok "\x7b\x7d")⟩

/-- C7 counterexample: an alert produced by
`GPTService.parseComplianceResponse` carries a detection timestamp but
no `status` field at all — in particular its status is not OPEN. -/
theorem gpt_alert_missing_status_counterexample :
    (GPTService.parseComplianceResponse oneIssueReply now0).toOption =
      some [Js.obj [("type", Js.str "overtime"), ("severity", Js.str "HIGH"),
                    ("description", Js.str "too many hours"),
                    ("detectedAt", Js.str now0)]] ∧
    ((GPTService.parseComplianceResponse oneIssueReply now0).toOption.bind
      (fun alerts => alerts.head?)).bind (fun a => a.objGet "status") = none := by
  constructor <;> rfl

/-- Fields stamped by the compliance workflow's alert mapping: the
detection timestamp and status OPEN are present whatever the reply's
issue object contained (later keys overwrite earlier ones). -/
theorem scanAlert_fields (now : String) (issue : Js) :
    (ComplianceCheckWorkflow.scanAlert now issue).objGet "detectedAt" =
      some (Js.str now) ∧
    (ComplianceCheckWorkflow.scanAlert now issue).objGet "status" =
      some (Js.str "OPEN") := by
  unfold ComplianceCheckWorkflow.scanAlert
  constructor
  · show (upsertAll (spreadFields issue)
      [("detectedAt", Js.str now), ("status", Js.str "OPEN")]).lookup "detectedAt" =
        some (Js.str now)
    unfold upsertAll
    simp only [List.foldl]
    rw [lookup_upsert_other _ "status" "detectedAt" _ (by decide)]
    exact lookup_upsert_self _ _ _
  · show (upsertAll (spreadFields issue)
      [("detectedAt", Js.str now), ("status", Js.str "OPEN")]).lookup "status" =
        some (Js.str "OPEN")
    unfold upsertAll
    simp only [List.foldl]
    exact lookup_upsert_self _ _ _

/-- Fields of an alert produced by the GPT service's issue mapping: a
detection timestamp is present but no `status` field is written. -/
theorem complianceAlertOf_fields (now : String) (issue : Js) (a : Js)
    (h : GPTService.complianceAlertOf now issue = some a) :
    a.objGet "detectedAt" = some (Js.str now) ∧ a.objGet "status" = none := by
  unfold GPTService.complianceAlertOf at h
  cases h1 : jsGet issue "type" with
  | none => simp [h1] at h
  | some t =>
    cases h2 : jsGet issue "severity" with
    | none => simp [h1, h2] at h
    | some sv =>
      cases h3 : jsGet issue "description" with
      | none => simp [h1, h2, h3] at h
      | some d =>
        simp only [h1, h2, h3, Option.some_bind] at h
        obtain rfl := Option.some.inj h
        constructor <;> rfl

/-- C7 (amended): every alert produced by `ComplianceCheckWorkflow.scan`
carries a detection timestamp and status OPEN, but every alert produced
by `GPTService.parseComplianceResponse` (the mapping used by
`scanForComplianceIssues`) carries a detection timestamp and no
`status` field at all — the OPEN default exists only in the workflow
variant. -/
theorem compliance_alert_fields (data : ComplianceScanData)
    (reply : Except String String) (s : String) (now : String) :
    (∀ alerts, ComplianceCheckWorkflow.scan data reply now = .ok alerts →
      ∀ a ∈ alerts, a.objGet "detectedAt" = some (Js.str now) ∧
        a.objGet "status" = some (Js.str "OPEN")) ∧
    (∀ alerts, GPTService.parseComplianceResponse s now = .ok alerts →
      ∀ a ∈ alerts, a.objGet "detectedAt" = some (Js.str now) ∧
        a.objGet "status" = none) := by
  constructor
  · intro alerts h a ha
    cases reply with
    | error e =>
      exact absurd h (by simp [ComplianceCheckWorkflow.scan])
    | ok response =>
      unfold ComplianceCheckWorkflow.scan at h
      simp only [] at h
      cases hj : jsonParse response with
      | none => rw [hj] at h; exact Except.noConfusion h
      | some j =>
        rw [hj] at h
        simp only [] at h
        cases hi : jsGet j "issues" with
        | none => rw [hi] at h; exact Except.noConfusion h
        | some v =>
          rw [hi] at h
          cases v
          case arr xs =>
            obtain rfl := Except.ok.inj h
            obtain ⟨issue, hmem, rfl⟩ := List.mem_map.mp ha
            exact scanAlert_fields now issue
          all_goals exact Except.noConfusion h
  · intro alerts h a ha
    unfold GPTService.parseComplianceResponse at h
    cases hj : jsonParse s with
    | none => rw [hj] at h; exact Except.noConfusion h
    | some j =>
      rw [hj] at h
      simp only [] at h
      cases hi : jsGet j "issues" with
      | none => rw [hi] at h; exact Except.noConfusion h
      | some v =>
        rw [hi] at h
        cases v
        case arr xs =>
          simp only [] at h
          cases hm : optionMapList (GPTService.complianceAlertOf now) xs with
          | none => rw [hm] at h; exact Except.noConfusion h
          | some alerts2 =>
            rw [hm] at h
            obtain rfl := Except.ok.inj h
            obtain ⟨issue, hmem, hia⟩ := mem_of_optionMapList _ xs alerts2 hm a ha
            exact complianceAlertOf_fields now issue a hia
        all_goals exact Except.noConfusion h

/-- C7 witness: on the single-issue reply, the workflow's alert carries
status OPEN while the GPT service's alert has no status field. -/
theorem compliance_alert_fields_witness :
    (Js.obj [("type", Js.str "overtime"), ("severity", Js.str "HIGH"),
             ("description", Js.str "too many hours"), ("detectedAt", Js.str now0),
             ("status", Js.str "OPEN")]).objGet "status" = some (Js.str "OPEN") ∧
    (Js.obj [("type", Js.str "overtime"), ("severity", Js.str "HIGH"),
             ("description", Js.str "too many hours"),
             ("detectedAt", Js.str now0)]).objGet "status" = none :=
  ⟨((compliance_alert_fields sampleScanData (.ok oneIssueReply) oneIssueReply now0).1
      [Js.obj [("type", Js.str "overtime"), ("severity", Js.str "HIGH"),
               ("description", Js.str "too many hours"), ("detectedAt", Js.str now0),
               ("status", Js.str "OPEN")]] rfl
      (Js.obj [("type", Js.str "overtime"), ("severity", Js.str "HIGH"),
               ("description", Js.str "too many hours"), ("detectedAt", Js.str now0),
               ("status", Js.str "OPEN")]) (List.mem_singleton.mpr rfl)).2,
   ((compliance_alert_fields sampleScanData (.ok oneIssueReply) oneIssueReply now0).2
      [Js.obj [("type", Js.str "overtime"), ("severity", Js.str "HIGH"),
               ("description", Js.str "too many hours"), ("detectedAt", Js.str now0)]] rfl
      (Js.obj [("type", Js.str "overtime"), ("severity", Js.str "HIGH"),
               ("description", Js.str "too many hours"), ("detectedAt", Js.str now0)])
      (List.mem_singleton.mpr rfl)).2⟩
